import Mathlib

/-!
Verification development for the raindrop-io-mcp-server repository: a shallow
embedding of the MCP call-tool handler (src/index.ts), the Zod argument
schemas (src/types/index.ts) and the Raindrop REST client
(src/lib/raindrop-api.ts), together with theorems settling the frozen
claims about the specification.
-/

namespace Raindrop

/-! ## JSON-like argument values

Caller-supplied tool arguments arrive as JSON; we model the values the
declared schemas can meet.  JavaScript numbers are modelled as rationals
(every numeric literal and comparison the program performs is exact on the
values exercised here). -/

inductive JVal where
  | jstr (s : String)
  | jnum (q : Rat)
  | jbool (b : Bool)
  | jarr (elems : List JVal)
  | jobj (fields : List (String × JVal))
  | jnull
  deriving Repr

/-- A JavaScript object: ordered field list (no duplicate keys in practice). -/
abbrev JObj := List (String × JVal)

/-- JavaScript `Array.prototype.join(sep)`. -/
def joinWith (sep : String) : List String → String
  | [] => ""
  | [s] => s
  | s :: rest => s ++ sep ++ joinWith sep rest

/-- JavaScript `Number.prototype.toString` restricted to the values this
program prints (all integral in the exercised claims). -/
def numToString (q : Rat) : String :=
  if q.den = 1 then toString q.num else toString q

/-- The Zod type name of a received value, used in type-mismatch messages. -/
def typeName : JVal → String
  | .jstr _ => "string"
  | .jnum _ => "number"
  | .jbool _ => "boolean"
  | .jarr _ => "array"
  | .jobj _ => "object"
  | .jnull => "null"

/-! ## Zod validation (src/types/index.ts)

The Zod `z.object({...}).parse` call checks every declared field and aggregates all
issues of all fields into one `ZodError`; each issue carries a path and a
message.  Path segments (field names and array indices) are stringified,
matching `e.path.join(".")` in the error formatting of the handler. -/

structure Issue where
  path : List String
  message : String
  deriving Repr, DecidableEq

/-- Zod `z.string()` on a required field. -/
def checkRequiredString (field : String) : Option JVal → List Issue
  | none => [⟨[field], "Required"⟩]
  | some (.jstr _) => []
  | some v => [⟨[field], "Expected string, received " ++ typeName v⟩]

/-- Zod `z.string().optional()`. -/
def checkOptionalString (field : String) : Option JVal → List Issue
  | none => []
  | some (.jstr _) => []
  | some v => [⟨[field], "Expected string, received " ++ typeName v⟩]

/-- Zod `z.array(z.string()).optional()`: each non-string element yields its own
issue at path `[field, index]`. -/
def checkOptionalStringArray (field : String) : Option JVal → List Issue
  | none => []
  | some (.jarr xs) =>
      xs.enum.filterMap fun p =>
        match p.2 with
        | .jstr _ => none
        | v => some ⟨[field, toString p.1], "Expected string, received " ++ typeName v⟩
  | some v => [⟨[field], "Expected array, received " ++ typeName v⟩]

/-- Zod `z.number().optional()`. -/
def checkOptionalNumber (field : String) : Option JVal → List Issue
  | none => []
  | some (.jnum _) => []
  | some v => [⟨[field], "Expected number, received " ++ typeName v⟩]

/-- Zod `z.boolean().optional()`. -/
def checkOptionalBool (field : String) : Option JVal → List Issue
  | none => []
  | some (.jbool _) => []
  | some v => [⟨[field], "Expected boolean, received " ++ typeName v⟩]

/-- Field `page: z.number().min(0).optional()` — any number `≥ 0` passes;
there is no integrality check. -/
def checkPage : Option JVal → List Issue
  | none => []
  | some (.jnum q) =>
      if q < 0 then [⟨["page"], "Number must be greater than or equal to 0"⟩] else []
  | some v => [⟨["page"], "Expected number, received " ++ typeName v⟩]

/-- Field `perpage: z.number().min(1).max(50).optional()` — any number in `[1,50]`
passes; there is no integrality check. -/
def checkPerpage : Option JVal → List Issue
  | none => []
  | some (.jnum q) =>
      (if q < 1 then [⟨["perpage"], "Number must be greater than or equal to 1"⟩] else [])
        ++ (if 50 < q then [⟨["perpage"], "Number must be less than or equal to 50"⟩] else [])
  | some v => [⟨["perpage"], "Expected number, received " ++ typeName v⟩]

/-- The eight admissible sort keys of `SearchBookmarksSchema`. -/
def sortKeys : List String :=
  ["-created", "created", "-last_update", "last_update", "-title", "title", "-domain", "domain"]

/-- Field `sort: z.enum([...]).optional()`. -/
def checkSort : Option JVal → List Issue
  | none => []
  | some (.jstr s) =>
      if s ∈ sortKeys then [] else [⟨["sort"], "Invalid enum value, received " ++ s⟩]
  | some v => [⟨["sort"], "Expected string enum value, received " ++ typeName v⟩]

/-- Field `url: z.string().url()`.  The URL well-formedness test itself is the
validation library (it wraps the host `URL` parser), so it is passed in as
a parameter `urlValid`. -/
def checkUrl (urlValid : String → Bool) : Option JVal → List Issue
  | none => [⟨["url"], "Required"⟩]
  | some (.jstr s) => if urlValid s then [] else [⟨["url"], "Invalid url"⟩]
  | some v => [⟨["url"], "Expected string, received " ++ typeName v⟩]

/-- All issues of `SearchBookmarksSchema.parse(args)`, in field-declaration
order; the parse succeeds exactly when this list is empty. -/
def searchIssues (args : JObj) : List Issue :=
  checkRequiredString "query" (args.lookup "query")
    ++ checkOptionalStringArray "tags" (args.lookup "tags")
    ++ checkPage (args.lookup "page")
    ++ checkPerpage (args.lookup "perpage")
    ++ checkSort (args.lookup "sort")
    ++ checkOptionalNumber "collection" (args.lookup "collection")
    ++ checkOptionalBool "word" (args.lookup "word")

/-- All issues of `CreateBookmarkSchema.parse(args)`. -/
def createIssues (urlValid : String → Bool) (args : JObj) : List Issue :=
  checkUrl urlValid (args.lookup "url")
    ++ checkOptionalString "title" (args.lookup "title")
    ++ checkOptionalStringArray "tags" (args.lookup "tags")
    ++ checkOptionalNumber "collection" (args.lookup "collection")

/-- One rendered violation, `` `${e.path.join(".")}: ${e.message}` ``. -/
def renderIssue (i : Issue) : String :=
  joinWith "." i.path ++ ": " ++ i.message

/-- The ZodError formatting of the handler (src/index.ts, catch branch):
`` `Invalid arguments: ${error.errors.map(...).join(", ")}` ``. -/
def formatZodError (issues : List Issue) : String :=
  "Invalid arguments: " ++ joinWith ", " (issues.map renderIssue)

/-! ## Parsed argument records (the output types of the schemas) -/

/-- Type `SearchBookmarksParams = z.infer<typeof SearchBookmarksSchema>`. -/
structure SearchBookmarksParams where
  query : String
  tags : Option (List String)
  page : Option Rat
  perpage : Option Rat
  sort : Option String
  collection : Option Rat
  word : Option Bool
  deriving Repr, DecidableEq

/-- Type `CreateBookmarkParams = z.infer<typeof CreateBookmarkSchema>`. -/
structure CreateBookmarkParams where
  url : String
  title : Option String
  tags : Option (List String)
  collection : Option Rat
  deriving Repr, DecidableEq

def asStr : Option JVal → Option String
  | some (.jstr s) => some s
  | _ => none

def asStrList : Option JVal → Option (List String)
  | some (.jarr xs) => some (xs.filterMap fun v => asStr (some v))
  | _ => none

def asNum : Option JVal → Option Rat
  | some (.jnum q) => some q
  | _ => none

def asBool : Option JVal → Option Bool
  | some (.jbool b) => some b
  | _ => none

/-- The record produced by `SearchBookmarksSchema.parse` (meaningful only
when `searchIssues args = []`). -/
def parseSearch (args : JObj) : SearchBookmarksParams :=
  { query := (asStr (args.lookup "query")).getD ""
    tags := asStrList (args.lookup "tags")
    page := asNum (args.lookup "page")
    perpage := asNum (args.lookup "perpage")
    sort := asStr (args.lookup "sort")
    collection := asNum (args.lookup "collection")
    word := asBool (args.lookup "word") }

/-- The record produced by `CreateBookmarkSchema.parse` (meaningful only
when `createIssues urlValid args = []`). -/
def parseCreate (args : JObj) : CreateBookmarkParams :=
  { url := (asStr (args.lookup "url")).getD ""
    title := asStr (args.lookup "title")
    tags := asStrList (args.lookup "tags")
    collection := asNum (args.lookup "collection") }

/-! ## Request building (src/index.ts handler bodies) -/

/-- JavaScript `collection || 0`: `0` is falsy, so a supplied `0` and an
absent value both yield `0`; any other supplied number passes through. -/
def jsOrZero : Option Rat → Rat
  | none => 0
  | some v => if v = 0 then 0 else v

/-- The serialized JSON body of the create-bookmark POST,
`JSON.stringify({link: url, title, tags, collection: {$id: collection || 0}})`:
`JSON.stringify` drops fields whose value is `undefined`, so an omitted
`title` or `tags` is absent from the body, and the collection reference is
always present. -/
def createBookmarkBody (p : CreateBookmarkParams) : JObj :=
  [("link", JVal.jstr p.url)]
    ++ (match p.title with
        | some t => [("title", JVal.jstr t)]
        | none => [])
    ++ (match p.tags with
        | some ts => [("tags", JVal.jarr (ts.map JVal.jstr))]
        | none => [])
    ++ [("collection", JVal.jobj [("$id", JVal.jnum (jsOrZero p.collection))])]

/-- The `URLSearchParams` entries built by the search handler, in object
insertion order.  `tags && {...}` includes the entry for any present array
(an empty array is truthy in JavaScript); `page`/`perpage`/`word` are
included exactly when defined; `sort && {sort}` includes any present sort
key (the enum admits no empty string). -/
def searchQueryEntries (p : SearchBookmarksParams) : List (String × String) :=
  [("search", p.query)]
    ++ (match p.tags with
        | some ts => [("tags", joinWith "," ts)]
        | none => [])
    ++ (match p.page with
        | some q => [("page", numToString q)]
        | none => [])
    ++ (match p.perpage with
        | some q => [("perpage", numToString q)]
        | none => [])
    ++ (match p.sort with
        | some s => [("sort", s)]
        | none => [])
    ++ (match p.word with
        | some b => [("word", if b then "true" else "false")]
        | none => [])

/-! ## HTTP layer (src/lib/raindrop-api.ts)

`makeRequest` performs one `fetch`, attaching the bearer token, and throws
`Raindrop API error: <statusText>` on any non-ok response; otherwise the
JSON body is cast (unchecked) to the response type of the operation.  The remote
service is an oracle mapping each request to an ok-payload or an error
status text; URL percent-encoding of the query string is kept abstract by
carrying the query entries themselves. -/

structure HttpRequest where
  method : String
  path : String
  query : List (String × String)
  token : String
  body : Option JObj
  deriving Repr

/-- An HTTP response as the client observes it: `ok` with the (typed-cast)
JSON payload, or not-ok with a status text. -/
inductive HResp (α : Type) where
  | ok (payload : α)
  | err (statusText : String)
  deriving Repr, DecidableEq

/-- The error translation of `makeRequest`:
`if (!response.ok) throw new Error(\x60Raindrop API error: ${response.statusText}\x60)`. -/
def makeRequest {α : Type} : HResp α → Except String α
  | .ok a => .ok a
  | .err st => .error ("Raindrop API error: " ++ st)

/-! ## Typed response shapes (src/types/index.ts interfaces) -/

structure RaindropItem where
  title : String
  link : String
  tags : Option (List String)
  created : String
  lastUpdate : String
  deriving Repr, DecidableEq

structure SearchResponse where
  items : List RaindropItem
  count : Int
  deriving Repr, DecidableEq

structure ParentRef where
  _id : Int
  deriving Repr, DecidableEq

structure Collection where
  _id : Int
  title : String
  count : Int
  created : String
  parent : Option ParentRef
  deriving Repr, DecidableEq

structure CollectionsResponse where
  items : List Collection
  deriving Repr, DecidableEq

structure CreateItem where
  link : String
  deriving Repr, DecidableEq

/-- The response type of `createBookmark`, namely `{item: {link: string}}`. -/
structure CreateResult where
  item : CreateItem
  deriving Repr, DecidableEq

/-- The remote service, as an oracle per operation. -/
structure Remote where
  createResp : HttpRequest → HResp CreateResult
  searchResp : HttpRequest → HResp SearchResponse
  collectionsResp : HttpRequest → HResp CollectionsResponse

/-- The POST request of `createBookmark(params)`. -/
def createBookmarkReq (token : String) (p : CreateBookmarkParams) : HttpRequest :=
  { method := "POST", path := "/raindrop", query := [], token := token
    body := some (createBookmarkBody p) }

/-- The GET request of `searchBookmarks(collectionId, searchParams)`:
the collection id is embedded in the path, the query entries follow. -/
def searchBookmarksReq (token : String) (collectionId : Rat)
    (entries : List (String × String)) : HttpRequest :=
  { method := "GET", path := "/raindrops/" ++ numToString collectionId
    query := entries, token := token, body := none }

/-- The GET request of `listCollections()`. -/
def listCollectionsReq (token : String) : HttpRequest :=
  { method := "GET", path := "/collections", query := [], token := token, body := none }

/-- Operation `api.createBookmark`: one request, one response through `makeRequest`. -/
def apiCreateBookmark (remote : Remote) (token : String) (p : CreateBookmarkParams) :
    HttpRequest × Except String CreateResult :=
  let req := createBookmarkReq token p
  (req, makeRequest (remote.createResp req))

/-- Operation `api.searchBookmarks`: one request, one response through `makeRequest`. -/
def apiSearchBookmarks (remote : Remote) (token : String) (collectionId : Rat)
    (entries : List (String × String)) : HttpRequest × Except String SearchResponse :=
  let req := searchBookmarksReq token collectionId entries
  (req, makeRequest (remote.searchResp req))

/-- Operation `api.listCollections`: one request, one response through `makeRequest`. -/
def apiListCollections (remote : Remote) (token : String) :
    HttpRequest × Except String CollectionsResponse :=
  let req := listCollectionsReq token
  (req, makeRequest (remote.collectionsResp req))

/-! ## Response formatting (src/index.ts)

`new Date(s).toLocaleString()` is locale- and host-dependent; it is carried
as an abstract `fmtDate : String → String` parameter.  Every formatter below
is a total Lean function, mirroring that the template-literal code can only
throw on the guarded `item.tags` access, which it guards with `?.`. -/

/-- Expression `item.tags?.length ? item.tags.join(", ") : "No tags"`: a missing `tags`
field gives `undefined?.length = undefined` (falsy) and an empty array gives
length `0` (falsy), so both fall back to the sentinel. -/
def formatTags : Option (List String) → String
  | some ts => if ts.length != 0 then joinWith ", " ts else "No tags"
  | none => "No tags"

/-- One search-result block of the search-bookmarks formatter. -/
def formatItem (fmtDate : String → String) (it : RaindropItem) : String :=
  "\nTitle: " ++ it.title
    ++ "\nURL: " ++ it.link
    ++ "\nTags: " ++ formatTags it.tags
    ++ "\nCreated: " ++ fmtDate it.created
    ++ "\nLast Updated: " ++ fmtDate it.lastUpdate
    ++ "\n---"

/-- The page number shown in the search header.  The source expression is
`page ?? 0 + 1`; `+` binds tighter than `??`, so it is `page ?? (0 + 1)`:
the page value itself when defined, `1` when undefined. -/
def displayedPage (page : Option Rat) : Rat :=
  page.getD (0 + 1)

/-- The text of a successful search-bookmarks call. -/
def searchResultText (fmtDate : String → String) (page : Option Rat)
    (resp : SearchResponse) : String :=
  if resp.items.length > 0 then
    "Found " ++ toString resp.count ++ " total bookmarks (showing "
      ++ toString resp.items.length ++ " on page "
      ++ numToString (displayedPage page) ++ "):\n"
      ++ joinWith "\n" (resp.items.map (formatItem fmtDate))
  else
    "No bookmarks found matching your search."

/-- Expression `item.parent?._id || "None"`: an absent parent reference gives
`undefined` (falsy) and a parent id of `0` is falsy too, so both render as
`"None"`; any other id renders as its decimal string. -/
def formatParent : Option ParentRef → String
  | some p => if p._id = 0 then "None" else toString p._id
  | none => "None"

/-- One collection block of the list-collections formatter. -/
def formatCollection (fmtDate : String → String) (c : Collection) : String :=
  "\nName: " ++ c.title
    ++ "\nID: " ++ toString c._id
    ++ "\nCount: " ++ toString c.count ++ " bookmarks"
    ++ "\nParent: " ++ formatParent c.parent
    ++ "\nCreated: " ++ fmtDate c.created
    ++ "\n---"

/-- The text of a successful list-collections call. -/
def collectionsText (fmtDate : String → String) (resp : CollectionsResponse) : String :=
  if resp.items.length > 0 then
    "Found " ++ toString resp.items.length ++ " collections:\n"
      ++ joinWith "\n" (resp.items.map (formatCollection fmtDate))
  else
    "No collections found."

/-! ## The call-tool request handler (src/index.ts)

One RPC `call-tool` request: read the token from the environment (per
request), fail if it is unset (`!token` is also true for the empty string),
then dispatch on the tool name; each tool validates its arguments, performs
its single API call and formats the result.  The outcome carries the RPC
result (text payload or error message) together with the list of HTTP
requests actually issued. -/

structure Outcome where
  result : Except String String
  requests : List HttpRequest
  deriving Repr

/-- The `CallToolRequestSchema` handler. -/
def handleCallTool (urlValid : String → Bool) (fmtDate : String → String)
    (remote : Remote) (token : Option String) (name : String) (args : JObj) : Outcome :=
  match token with
  | none => { result := .error "RAINDROP_TOKEN is not set", requests := [] }
  | some tok =>
    if tok = "" then
      { result := .error "RAINDROP_TOKEN is not set", requests := [] }
    else if name = "create-bookmark" then
      match createIssues urlValid args with
      | [] =>
        let p := parseCreate args
        let call := apiCreateBookmark remote tok p
        { result := call.2.map fun r => "Bookmark created successfully: " ++ r.item.link
          requests := [call.1] }
      | issues => { result := .error (formatZodError issues), requests := [] }
    else if name = "search-bookmarks" then
      match searchIssues args with
      | [] =>
        let p := parseSearch args
        let call := apiSearchBookmarks remote tok (p.collection.getD 0) (searchQueryEntries p)
        { result := call.2.map (searchResultText fmtDate p.page), requests := [call.1] }
      | issues => { result := .error (formatZodError issues), requests := [] }
    else if name = "list-collections" then
      let call := apiListCollections remote tok
      { result := call.2.map (collectionsText fmtDate), requests := [call.1] }
    else
      { result := .error ("Unknown tool: " ++ name), requests := [] }

/-- One RPC call-tool request as queued on the transport. -/
structure ToolCall where
  name : String
  args : JObj
  deriving Repr

/-- The serving loop: requests are handled one at a time, each one reading
the environment afresh (`env i` is the token value observed by the i-th
request); no state crosses from one request to the next, and a failed
request never stops the loop. -/
def serve (urlValid : String → Bool) (fmtDate : String → String) (remote : Remote)
    (env : Nat → Option String) : Nat → List ToolCall → List Outcome
  | _, [] => []
  | i, c :: rest =>
      handleCallTool urlValid fmtDate remote (env i) c.name c.args
        :: serve urlValid fmtDate remote env (i + 1) rest

/-! ## An executable substring relation, for stating what a formatted text
displays. -/

/-- Whether `needle` begins `hay`. -/
def beginsWith : List Char → List Char → Bool
  | [], _ => true
  | _ :: _, [] => false
  | a :: as, b :: bs => a == b && beginsWith as bs

/-- Whether `needle` occurs contiguously somewhere in `hay`. -/
def hasSublist (needle : List Char) : List Char → Bool
  | [] => beginsWith needle []
  | b :: bs => beginsWith needle (b :: bs) || hasSublist needle bs

/-- Proposition that `sub` occurs contiguously in `s` (decidable, computable). -/
def ContainsSub (s sub : String) : Prop :=
  hasSublist sub.data s.data = true

instance (s sub : String) : Decidable (ContainsSub s sub) := by
  unfold ContainsSub
  infer_instance

/-! ## Concrete data used to instantiate hypotheses of the theorems below -/

/-- A remote oracle whose three operations all succeed with empty payloads. -/
def demoRemote : Remote :=
  { createResp := fun _ => .ok { item := { link := "http://x" } }
    searchResp := fun _ => .ok { items := [], count := 0 }
    collectionsResp := fun _ => .ok { items := [] } }

/-- A remote oracle whose three operations all answer `ok: false` with
distinct status texts. -/
def errRemote : Remote :=
  { createResp := fun _ => .err "Unauthorized"
    searchResp := fun _ => .err "Too Many Requests"
    collectionsResp := fun _ => .err "Bad Gateway" }

/-- A returned bookmark item with no tags field. -/
def demoItem : RaindropItem :=
  { title := "T", link := "http://x", tags := none, created := "c", lastUpdate := "u" }

/-- A create-bookmark argument record with only the required field. -/
def demoCreateParams : CreateBookmarkParams :=
  { url := "http://x", title := none, tags := none, collection := none }

theorem beginsWith_self (l : List Char) : beginsWith l l = true := by
  induction l with
  | nil => rfl
  | cons a as ih => simp [beginsWith, ih]

theorem beginsWith_append (n t : List Char) : beginsWith n (n ++ t) = true := by
  induction n with
  | nil => rfl
  | cons a as ih => simp [beginsWith, ih]

theorem hasSublist_of_beginsWith (n h : List Char) (hb : beginsWith n h = true) :
    hasSublist n h = true := by
  cases h with
  | nil => simpa [hasSublist] using hb
  | cons b bs => simp [hasSublist, hb]

theorem hasSublist_append_left (n h t : List Char) (ht : hasSublist n t = true) :
    hasSublist n (h ++ t) = true := by
  induction h with
  | nil => simpa using ht
  | cons b bs ih => simp [hasSublist, ih]

/-- A string contains itself followed by anything. -/
theorem hasSublist_append_self (n t : List Char) : hasSublist n (n ++ t) = true :=
  hasSublist_of_beginsWith _ _ (beginsWith_append _ _)

theorem containsSub_of_eq_append (s sub a b : String) (h : s = a ++ sub ++ b) :
    ContainsSub s sub := by
  subst h
  show hasSublist sub.data (a ++ sub ++ b).data = true
  rw [String.data_append, String.data_append, List.append_assoc]
  exact hasSublist_append_left _ _ _ (hasSublist_append_self _ _)

theorem containsSub_appL (s t sub : String) (h : ContainsSub t sub) :
    ContainsSub (s ++ t) sub := by
  show hasSublist sub.data (s ++ t).data = true
  rw [String.data_append]
  exact hasSublist_append_left _ _ _ h

theorem containsSub_self_append (s t : String) : ContainsSub (s ++ t) s := by
  show hasSublist s.data (s ++ t).data = true
  rw [String.data_append]
  exact hasSublist_append_self _ _

theorem beginsWith_extend (n : List Char) :
    ∀ h t, beginsWith n h = true → beginsWith n (h ++ t) = true := by
  induction n with
  | nil => intro h t _; rfl
  | cons a as ih =>
    intro h t hb
    cases h with
    | nil => cases hb
    | cons b bs =>
      simp only [beginsWith, Bool.and_eq_true] at hb
      simpa [beginsWith, hb.1] using ih bs t hb.2

theorem hasSublist_extend (n : List Char) :
    ∀ h t, hasSublist n h = true → hasSublist n (h ++ t) = true := by
  intro h
  induction h with
  | nil =>
    intro t hs
    cases n with
    | nil => exact hasSublist_of_beginsWith _ _ rfl
    | cons a as => cases hs
  | cons b bs ih =>
    intro t hs
    rcases Bool.or_eq_true_iff.mp (by simpa [hasSublist] using hs) with hb | hrec
    · exact hasSublist_of_beginsWith _ _ (beginsWith_extend _ _ _ hb)
    · simp [hasSublist, ih t hrec]

theorem containsSub_appR (s t sub : String) (h : ContainsSub s sub) :
    ContainsSub (s ++ t) sub := by
  show hasSublist sub.data (s ++ t).data = true
  rw [String.data_append]
  exact hasSublist_extend _ _ _ h

theorem containsSub_refl (s : String) : ContainsSub s s :=
  hasSublist_of_beginsWith _ _ (beginsWith_self _)

/-- A suffix of two chunks occurs in any string ending with those chunks. -/
theorem containsSub_tail2 (X a e : String) : ContainsSub ((X ++ a) ++ e) (a ++ e) := by
  rw [String.append_assoc]
  exact containsSub_appL _ _ _ (containsSub_refl _)

/-- A suffix of three chunks occurs in any string ending with those chunks. -/
theorem containsSub_tail3 (X a d e : String) :
    ContainsSub (((X ++ a) ++ d) ++ e) ((a ++ d) ++ e) := by
  have h : ((X ++ a) ++ d) ++ e = X ++ ((a ++ d) ++ e) := by
    simp only [String.append_assoc]
  rw [h]
  exact containsSub_appL _ _ _ (containsSub_refl _)

/-- Every member of a joined list occurs in the join. -/
theorem containsSub_joinWith (sep : String) (l : List String) (s : String)
    (hs : s ∈ l) : ContainsSub (joinWith sep l) s := by
  induction l with
  | nil => cases hs
  | cons x rest ih =>
    rcases List.mem_cons.mp hs with h | h
    · subst h
      cases rest with
      | nil => exact containsSub_of_eq_append _ _ "" "" (by simp [joinWith])
      | cons y ys =>
        exact containsSub_of_eq_append _ _ "" (sep ++ joinWith sep (y :: ys))
          (by simp [joinWith, String.append_assoc])
    · cases rest with
      | nil => cases h
      | cons y ys =>
        show ContainsSub (x ++ sep ++ joinWith sep (y :: ys)) s
        rw [String.append_assoc]
        exact containsSub_appL _ _ _ (containsSub_appL _ _ _ (ih h))

/-! ## The claims -/

/-- C10: with no token in the environment, every call-tool request — whatever
tool it names and whatever arguments it carries, valid or not — yields the
token-missing error, performs no argument validation observable in the
result, and issues no HTTP request. -/
theorem C10_token_checked_before_dispatch (urlValid : String → Bool)
    (fmtDate : String → String) (remote : Remote) (name : String) (args : JObj) :
    handleCallTool urlValid fmtDate remote none name args
      = { result := .error "RAINDROP_TOKEN is not set", requests := [] } := rfl

/-- C9: the list-collections formatter renders a parent reference whose
numeric id is `0` as the line `Parent: None`, exactly as it renders an
absent parent reference — the two are indistinguishable in the output. -/
theorem C9_parent_id_zero_shows_none (fmtDate : String → String) (c : Collection) :
    formatCollection fmtDate { c with parent := some { _id := 0 } }
        = formatCollection fmtDate { c with parent := none }
    ∧ ContainsSub (formatCollection fmtDate { c with parent := some { _id := 0 } })
        "Parent: None" := by
  refine ⟨rfl, ?_⟩
  simp only [formatCollection]
  apply containsSub_appR
  apply containsSub_appR
  apply containsSub_appR
  rw [show ("\nParent: " : String) = "\n" ++ "Parent: " from rfl,
    ← String.append_assoc]
  exact containsSub_tail2 _ "Parent: " _

/-- C8: the search-result block formatter is a total function that renders
the title, URL and both (date-formatted) timestamps, and an item
whose tags field is missing renders the sentinel `Tags: No tags` instead of
failing. -/
theorem C8_formatter_total_and_tags_fallback (fmtDate : String → String)
    (it : RaindropItem) :
    ContainsSub (formatItem fmtDate it) ("Title: " ++ it.title)
    ∧ ContainsSub (formatItem fmtDate it) ("URL: " ++ it.link)
    ∧ ContainsSub (formatItem fmtDate it) ("Created: " ++ fmtDate it.created)
    ∧ ContainsSub (formatItem fmtDate it) ("Last Updated: " ++ fmtDate it.lastUpdate)
    ∧ ContainsSub (formatItem fmtDate { it with tags := none }) "Tags: No tags" := by
  refine ⟨?_, ?_, ?_, ?_, ?_⟩
  · simp only [formatItem]
    apply containsSub_appR; apply containsSub_appR; apply containsSub_appR
    apply containsSub_appR; apply containsSub_appR; apply containsSub_appR
    apply containsSub_appR; apply containsSub_appR; apply containsSub_appR
    rw [show ("\nTitle: " : String) = "\n" ++ "Title: " from rfl]
    exact containsSub_tail2 "\n" "Title: " it.title
  · simp only [formatItem]
    apply containsSub_appR; apply containsSub_appR; apply containsSub_appR
    apply containsSub_appR; apply containsSub_appR; apply containsSub_appR
    apply containsSub_appR
    rw [show ("\nURL: " : String) = "\n" ++ "URL: " from rfl, ← String.append_assoc]
    exact containsSub_tail2 _ "URL: " it.link
  · simp only [formatItem]
    apply containsSub_appR; apply containsSub_appR; apply containsSub_appR
    rw [show ("\nCreated: " : String) = "\n" ++ "Created: " from rfl, ← String.append_assoc]
    exact containsSub_tail2 _ "Created: " (fmtDate it.created)
  · simp only [formatItem]
    apply containsSub_appR
    rw [show ("\nLast Updated: " : String) = "\n" ++ "Last Updated: " from rfl,
      ← String.append_assoc]
    exact containsSub_tail2 _ "Last Updated: " (fmtDate it.lastUpdate)
  · simp only [formatItem]
    apply containsSub_appR; apply containsSub_appR; apply containsSub_appR
    apply containsSub_appR; apply containsSub_appR
    rw [show ("\nTags: " : String) = "\n" ++ "Tags: " from rfl, ← String.append_assoc]
    exact containsSub_tail2 _ "Tags: " _

/-- C1 counterexample: for the defined page argument `1`, the search header
displays page `1`, not `1 + 1 = 2` as the claim states: `page ?? 0 + 1`
parses as `page ?? (0 + 1)`, so a defined page is displayed unchanged. -/
theorem C1_counterexample :
    displayedPage (some 1) = 1
    ∧ displayedPage (some 1) ≠ 1 + 1
    ∧ ContainsSub (searchResultText id (some 1) { items := [demoItem], count := 1 })
        "on page 1"
    ∧ ¬ ContainsSub (searchResultText id (some 1) { items := [demoItem], count := 1 })
        "on page 2" := by
  exact ⟨rfl, by norm_num [displayedPage], by decide, by decide⟩

/-- C1 as amended: in the header of every successful search with at least
one returned item, the displayed page number is `1` when the page argument
is undefined, and is `p` itself (not `p + 1`) when the page argument is
defined with value `p`. -/
theorem C1_amended_header_page (fmtDate : String → String) (count : Int)
    (it : RaindropItem) (rest : List RaindropItem) :
    displayedPage none = 1
    ∧ (∀ p : Rat, displayedPage (some p) = p)
    ∧ (∀ page : Option Rat,
        ContainsSub (searchResultText fmtDate page { items := it :: rest, count := count })
          (" on page " ++ numToString (displayedPage page) ++ "):")) := by
  refine ⟨by norm_num [displayedPage], fun p => rfl, fun page => ?_⟩
  simp only [searchResultText]
  have hp : ({ items := it :: rest, count := count } : SearchResponse).items.length > 0 := by
    simp
  rw [if_pos hp]
  apply containsSub_appR
  rw [show ("):\n" : String) = "):" ++ "\n" from rfl, ← String.append_assoc]
  apply containsSub_appR
  exact containsSub_tail3 _ " on page " _ "):"

theorem jsOrZero_eq_getD (o : Option Rat) : jsOrZero o = o.getD 0 := by
  cases o with
  | none => rfl
  | some v => by_cases hv : v = 0 <;> simp [jsOrZero, hv]

/-- C2: for every parsed create-bookmark argument record, the serialized
POST body has exactly the keys `link`, `collection`, plus `title`/`tags`
when and only when supplied (never as null), the supplied values pass
through verbatim, and the collection reference carries the id given by the caller when
supplied and `0` when absent (the source expression `collection || 0` agrees with
`collection ?? 0` on every number, since `0 || 0` is `0`). -/
theorem C2_create_body_exact_fields (tok : String) (p : CreateBookmarkParams) :
    (createBookmarkBody p).map Prod.fst
        = ["link"] ++ (if p.title.isSome then ["title"] else [])
          ++ (if p.tags.isSome then ["tags"] else []) ++ ["collection"]
    ∧ (createBookmarkBody p).lookup "link" = some (JVal.jstr p.url)
    ∧ (createBookmarkBody p).lookup "title" = p.title.map JVal.jstr
    ∧ (createBookmarkBody p).lookup "tags"
        = p.tags.map (fun ts => JVal.jarr (ts.map JVal.jstr))
    ∧ (createBookmarkBody p).lookup "collection"
        = some (JVal.jobj [("$id", JVal.jnum (p.collection.getD 0))])
    ∧ (createBookmarkReq tok p).body = some (createBookmarkBody p) := by
  obtain ⟨url, title, tags, collection⟩ := p
  cases title <;> cases tags <;>
    refine ⟨rfl, rfl, rfl, rfl, ?_, rfl⟩ <;>
    simp [createBookmarkBody, jsOrZero_eq_getD, List.lookup]

/-- C3: whenever the remote answers a request with `ok: false` and status
text `X`, the corresponding client operation (`createBookmark`,
`searchBookmarks`, `listCollections`) fails with the message
`Raindrop API error: X` exactly, and the operation consists of that single
request — no retry is attempted. -/
theorem C3_api_error_propagation (remote : Remote) (tok : String)
    (p : CreateBookmarkParams) (cid : Rat) (entries : List (String × String))
    (st1 st2 st3 : String)
    (h1 : remote.createResp (createBookmarkReq tok p) = .err st1)
    (h2 : remote.searchResp (searchBookmarksReq tok cid entries) = .err st2)
    (h3 : remote.collectionsResp (listCollectionsReq tok) = .err st3) :
    apiCreateBookmark remote tok p
        = (createBookmarkReq tok p, .error ("Raindrop API error: " ++ st1))
    ∧ apiSearchBookmarks remote tok cid entries
        = (searchBookmarksReq tok cid entries, .error ("Raindrop API error: " ++ st2))
    ∧ apiListCollections remote tok
        = (listCollectionsReq tok, .error ("Raindrop API error: " ++ st3)) := by
  refine ⟨?_, ?_, ?_⟩ <;>
    simp [apiCreateBookmark, apiSearchBookmarks, apiListCollections, h1, h2, h3, makeRequest]

theorem C3_api_error_propagation_witness :
    errRemote.createResp (createBookmarkReq "t" demoCreateParams) = .err "Unauthorized"
    ∧ errRemote.searchResp (searchBookmarksReq "t" 0 []) = .err "Too Many Requests"
    ∧ errRemote.collectionsResp (listCollectionsReq "t") = .err "Bad Gateway"
    ∧ (apiCreateBookmark errRemote "t" demoCreateParams
        = (createBookmarkReq "t" demoCreateParams,
            .error ("Raindrop API error: " ++ "Unauthorized"))
      ∧ apiSearchBookmarks errRemote "t" 0 []
        = (searchBookmarksReq "t" 0 [], .error ("Raindrop API error: " ++ "Too Many Requests"))
      ∧ apiListCollections errRemote "t"
        = (listCollectionsReq "t", .error ("Raindrop API error: " ++ "Bad Gateway"))) :=
  ⟨rfl, rfl, rfl, C3_api_error_propagation errRemote "t" demoCreateParams 0 []
    "Unauthorized" "Too Many Requests" "Bad Gateway" rfl rfl rfl⟩

/-- C6 counterexample: the value `5/2` — not an integer — is accepted by
search-bookmarks validation as `perpage`, because `z.number().min(1).max(50)`
carries no integrality check; the claim says every non-integer is
rejected. -/
theorem C6_counterexample :
    searchIssues [("query", JVal.jstr "a"), ("perpage", JVal.jnum (mkRat 5 2))] = []
    ∧ (mkRat 5 2).den ≠ 1 := by
  decide

/-- C6 as amended: validation accepts `page` exactly when it is a number
`≥ 0` and `perpage` exactly when it is a number in `[1, 50]` — integrality
is not required, so in-range non-integers are accepted — while non-numeric
values for either field are rejected. -/
theorem C6_amended_range_only (q : Rat) :
    (searchIssues [("query", JVal.jstr "a"), ("page", JVal.jnum q)] = [] ↔ 0 ≤ q)
    ∧ (searchIssues [("query", JVal.jstr "a"), ("perpage", JVal.jnum q)] = []
        ↔ 1 ≤ q ∧ q ≤ 50)
    ∧ (∀ s : String, searchIssues [("query", JVal.jstr "a"), ("page", JVal.jstr s)] ≠ [])
    ∧ (∀ b : Bool, searchIssues [("query", JVal.jstr "a"), ("perpage", JVal.jbool b)] ≠ []) := by
  refine ⟨?_, ?_, fun s => ?_, fun b => ?_⟩ <;>
    simp [searchIssues, checkRequiredString, checkOptionalStringArray, checkPage,
      checkPerpage, checkSort, checkOptionalNumber, checkOptionalBool, List.lookup]

/-- C4: when the arguments of a search-bookmarks or create-bookmark call
carry two or more schema violations, the handler fails with one aggregated
`Invalid arguments:` error whose message lists every violation (dotted path
plus message), never only the first. -/
theorem C4_validation_error_aggregates_all (urlValid : String → Bool)
    (fmtDate : String → String) (remote : Remote) (tok : String) (args args2 : JObj)
    (htok : tok ≠ "")
    (hs : 2 ≤ (searchIssues args).length)
    (hc : 2 ≤ (createIssues urlValid args2).length) :
    ((handleCallTool urlValid fmtDate remote (some tok) "search-bookmarks" args).result
        = .error (formatZodError (searchIssues args))
      ∧ ∀ i ∈ searchIssues args,
          ContainsSub (formatZodError (searchIssues args)) (renderIssue i))
    ∧ ((handleCallTool urlValid fmtDate remote (some tok) "create-bookmark" args2).result
        = .error (formatZodError (createIssues urlValid args2))
      ∧ ∀ i ∈ createIssues urlValid args2,
          ContainsSub (formatZodError (createIssues urlValid args2)) (renderIssue i)) := by
  have contain : ∀ (issues : List Issue), ∀ i ∈ issues,
      ContainsSub (formatZodError issues) (renderIssue i) := by
    intro issues i hi
    exact containsSub_appL _ _ _
      (containsSub_joinWith _ _ _ (List.mem_map_of_mem renderIssue hi))
  refine ⟨⟨?_, contain _⟩, ⟨?_, contain _⟩⟩
  · rcases hsi : searchIssues args with _ | ⟨i, rest⟩
    · simp [hsi] at hs
    · simp [handleCallTool, htok, hsi]
  · rcases hci : createIssues urlValid args2 with _ | ⟨i, rest⟩
    · simp [hci] at hc
    · simp [handleCallTool, htok, hci]

theorem C4_validation_error_aggregates_all_witness :
    ("t" : String) ≠ ""
    ∧ 2 ≤ (searchIssues [("tags", JVal.jnum 1)]).length
    ∧ 2 ≤ (createIssues (fun _ => true) [("url", JVal.jnum 1), ("title", JVal.jnum 1)]).length
    ∧ (((handleCallTool (fun _ => true) id demoRemote (some "t") "search-bookmarks"
          [("tags", JVal.jnum 1)]).result
        = .error (formatZodError (searchIssues [("tags", JVal.jnum 1)]))
      ∧ ∀ i ∈ searchIssues [("tags", JVal.jnum 1)],
          ContainsSub (formatZodError (searchIssues [("tags", JVal.jnum 1)])) (renderIssue i))
    ∧ ((handleCallTool (fun _ => true) id demoRemote (some "t") "create-bookmark"
          [("url", JVal.jnum 1), ("title", JVal.jnum 1)]).result
        = .error (formatZodError (createIssues (fun _ => true)
            [("url", JVal.jnum 1), ("title", JVal.jnum 1)]))
      ∧ ∀ i ∈ createIssues (fun _ => true) [("url", JVal.jnum 1), ("title", JVal.jnum 1)],
          ContainsSub (formatZodError (createIssues (fun _ => true)
            [("url", JVal.jnum 1), ("title", JVal.jnum 1)])) (renderIssue i))) :=
  ⟨by decide, by decide, by decide,
    C4_validation_error_aggregates_all (fun _ => true) id demoRemote "t"
      [("tags", JVal.jnum 1)] [("url", JVal.jnum 1), ("title", JVal.jnum 1)]
      (by decide) (by decide) (by decide)⟩

/-- C5 counterexample: the empty string passes `query: z.string()` — the
schema carries no non-emptiness constraint — and the handler then issues
the HTTP request, with `search=` set to the empty string; the claim says
validation fails and no request is made. -/
theorem C5_counterexample :
    searchIssues [("query", JVal.jstr "")] = []
    ∧ (handleCallTool (fun _ => true) id demoRemote (some "t") "search-bookmarks"
        [("query", JVal.jstr "")]).requests
      = [searchBookmarksReq "t" 0 [("search", "")]] := by
  exact ⟨by decide, rfl⟩

/-- C5 as amended: `query` is required and must be a string, but the empty
string is accepted; a search-bookmarks call with an empty query passes
validation and issues exactly one HTTP request, carrying `search=""`. -/
theorem C5_amended_empty_query_accepted (urlValid : String → Bool)
    (fmtDate : String → String) (remote : Remote) (tok : String) (htok : tok ≠ "") :
    searchIssues [("query", JVal.jstr "")] = []
    ∧ handleCallTool urlValid fmtDate remote (some tok) "search-bookmarks"
        [("query", JVal.jstr "")]
      = { result := (makeRequest
            (remote.searchResp (searchBookmarksReq tok 0 [("search", "")]))).map
              (searchResultText fmtDate none)
          requests := [searchBookmarksReq tok 0 [("search", "")]] } := by
  have h0 : searchIssues [("query", JVal.jstr "")] = [] := by decide
  refine ⟨h0, ?_⟩
  simp [handleCallTool, htok, h0, apiSearchBookmarks, parseSearch, searchQueryEntries,
    asStr, asStrList, asNum, asBool, List.lookup]

theorem C5_amended_empty_query_accepted_witness :
    ("t" : String) ≠ ""
    ∧ (searchIssues [("query", JVal.jstr "")] = []
      ∧ handleCallTool (fun _ => true) id demoRemote (some "t") "search-bookmarks"
          [("query", JVal.jstr "")]
        = { result := (makeRequest
              (demoRemote.searchResp (searchBookmarksReq "t" 0 [("search", "")]))).map
                (searchResultText id none)
            requests := [searchBookmarksReq "t" 0 [("search", "")]] }) :=
  ⟨by decide, C5_amended_empty_query_accepted (fun _ => true) id demoRemote "t" (by decide)⟩

theorem serve_length (urlValid : String → Bool) (fmtDate : String → String)
    (remote : Remote) (env : Nat → Option String) :
    ∀ (k : Nat) (reqs : List ToolCall),
      (serve urlValid fmtDate remote env k reqs).length = reqs.length := by
  intro k reqs
  induction reqs generalizing k with
  | nil => rfl
  | cons c rest ih => simp [serve, ih]

theorem serve_getElem (urlValid : String → Bool) (fmtDate : String → String)
    (remote : Remote) (env : Nat → Option String) :
    ∀ (reqs : List ToolCall) (k i : Nat), i < reqs.length →
      (serve urlValid fmtDate remote env k reqs)[i]?
        = reqs[i]?.map
            (fun c => handleCallTool urlValid fmtDate remote (env (k + i)) c.name c.args) := by
  intro reqs
  induction reqs with
  | nil => intro k i hi; cases hi
  | cons c rest ih =>
    intro k i hi
    cases i with
    | zero => simp [serve]
    | succ i =>
      have hlt : i < rest.length := by simpa using hi
      have harith : k + 1 + i = k + (i + 1) := by omega
      simp only [serve, List.getElem?_cons_succ]
      rw [ih (k + 1) i hlt, harith]

/-- C7: when the environment holds no token at the moment the i-th request
is handled, that request fails with the configuration error whatever tool
it names — the token is read afresh on every request — and the loop still
produces an outcome for every queued request. -/
theorem C7_token_missing_fails_request (urlValid : String → Bool)
    (fmtDate : String → String) (remote : Remote) (env : Nat → Option String)
    (reqs : List ToolCall) (i : Nat) (hi : i < reqs.length) (hnone : env i = none) :
    (serve urlValid fmtDate remote env 0 reqs).length = reqs.length
    ∧ (serve urlValid fmtDate remote env 0 reqs)[i]?
        = some { result := .error "RAINDROP_TOKEN is not set", requests := [] } := by
  refine ⟨serve_length urlValid fmtDate remote env 0 reqs, ?_⟩
  rw [serve_getElem urlValid fmtDate remote env reqs 0 i hi,
    List.getElem?_eq_getElem hi]
  simp [Nat.zero_add, hnone, handleCallTool]

theorem C7_token_missing_fails_request_witness :
    0 < ([{ name := "list-collections", args := [] }] : List ToolCall).length
    ∧ (fun _ : Nat => (none : Option String)) 0 = none
    ∧ ((serve (fun _ => true) id demoRemote (fun _ => none) 0
          [{ name := "list-collections", args := [] }]).length
        = ([{ name := "list-collections", args := [] }] : List ToolCall).length
      ∧ (serve (fun _ => true) id demoRemote (fun _ => none) 0
          [{ name := "list-collections", args := [] }])[0]?
        = some { result := .error "RAINDROP_TOKEN is not set", requests := [] }) :=
  ⟨by decide, rfl,
    C7_token_missing_fails_request (fun _ => true) id demoRemote (fun _ => none)
      [{ name := "list-collections", args := [] }] 0 (by decide) rfl⟩

end Raindrop
